import Mathlib

/-!
Shallow embedding of `tracing-core/src/field.rs` (the field/value recording
core of the `tracing` repository): `FieldSet`, `Field`, the closed `Value`
catalogue with its `Visit` double dispatch, and `ValueSet`.

Modelling conventions:
* `callsite::Identifier` is an opaque comparable handle; it is modelled as a
  `Nat` with decidable equality (the code only ever compares identifiers).
* `&'static [&'static str]` becomes `List String`.
* Machine-integer payloads are modelled as `Nat` (unsigned) and `Int`
  (signed); the `as u64` / `as i64` widening conversions performed by the
  `impl_values!` macro are value-preserving on the source types' ranges, so
  on the modelled payload they are the identity.
* `f32`/`f64` payloads are modelled by their exact rational value (`Rat`);
  the `as f64` widening of an `f32` is exact (every binary32 value is a
  binary64 value), hence the identity on the modelled payload.
* `&dyn fmt::Debug` / `&dyn fmt::Display` / `&dyn Error` arguments are
  modelled by their rendered text (`String`).
* A visitor (`dyn Visit`) is modelled as a record of its ten methods acting
  on an explicit state `σ`; `&mut` mutation becomes state passing.
-/

namespace Tracing

/-- `FieldSet { names, callsite }` from field.rs. -/
structure FieldSet where
  names : List String
  callsite : Nat
deriving DecidableEq, Repr

/-- `Field { i, fields }` from field.rs. -/
structure Field where
  i : Nat
  fields : FieldSet
deriving DecidableEq, Repr

/-- `Field::callsite`: `self.fields.callsite()`. -/
def Field.callsite (f : Field) : Nat :=
  f.fields.callsite

/-- `Field::name`: `self.fields.names[self.i]`. The Rust indexing panics when
out of bounds; the fallible lookup is modelled with `Option`. -/
def Field.name (f : Field) : Option String :=
  f.fields.names[f.i]?

/-- Total variant of `Field::name` used where the surrounding code assumes the
index is in bounds (claim C10 shows publicly constructed fields are). -/
def Field.nameD (f : Field) : String :=
  f.fields.names.getD f.i ""

/-- `Field::index`. -/
def Field.index (f : Field) : Nat :=
  f.i

/-- The closed `Value` catalogue of field.rs: one constructor per `impl Value`
in the source. Payload conventions are described in the file header. -/
inductive Value where
  | vU64 (v : Nat)
  | vUsize (v : Nat)
  | vU32 (v : Nat)
  | vU16 (v : Nat)
  | vU8 (v : Nat)
  | vI64 (v : Int)
  | vIsize (v : Int)
  | vI32 (v : Int)
  | vI16 (v : Int)
  | vI8 (v : Int)
  | vU128 (v : Nat)
  | vI128 (v : Int)
  | vBool (b : Bool)
  | vF64 (v : Rat)
  | vF32 (v : Rat)
  | vNonZeroU64 (v : Nat)
  | vNonZeroUsize (v : Nat)
  | vNonZeroU32 (v : Nat)
  | vNonZeroU16 (v : Nat)
  | vNonZeroU8 (v : Nat)
  | vNonZeroI64 (v : Int)
  | vNonZeroIsize (v : Int)
  | vNonZeroI32 (v : Int)
  | vNonZeroI16 (v : Int)
  | vNonZeroI8 (v : Int)
  | vNonZeroU128 (v : Nat)
  | vNonZeroI128 (v : Int)
  | vStr (s : String)
  | vBytes (bs : List Nat)
  | vError (display : String)
  | vDisplayValue (display : String)
  | vDebugValue (dbg : String)
  | vArguments (dbg : String)
  | vString (s : String)
  | vBoxed (inner : Value)
  | vWrapping (inner : Value)
  | vEmpty
deriving DecidableEq, Repr

/-- The `Visit` trait: ten methods, each mutating the visitor; mutation is
modelled as state passing over `σ`. -/
structure Visitor (σ : Type) where
  recordF64 : σ → Field → Rat → σ
  recordI64 : σ → Field → Int → σ
  recordU64 : σ → Field → Nat → σ
  recordI128 : σ → Field → Int → σ
  recordU128 : σ → Field → Nat → σ
  recordBool : σ → Field → Bool → σ
  recordStr : σ → Field → String → σ
  recordBytes : σ → Field → List Nat → σ
  recordError : σ → Field → String → σ
  recordDebug : σ → Field → String → σ

/-- `Value::record` for every member of the catalogue, read off the
`impl_values!` expansion and the hand-written `impl Value for ...` blocks:
* `record_u64(u64)`, `record_u64(usize, u32, u16, u8 as u64)`,
  `record_i64(i64)`, `record_i64(isize, i32, i16, i8 as i64)`,
  `record_u128(u128)`, `record_i128(i128)`, `record_bool(bool)`,
  `record_f64(f64, f32 as f64)`; the widening `as` casts are
  value-preserving, hence identities on the modelled payloads;
* each `NonZero*` impl calls the same visitor method on `self.get()`;
* `str` calls `record_str`, `[u8]` calls `record_bytes`;
* `dyn Error` (and its `Send`/`Sync` variants, which delegate to it) calls
  `record_error`, carrying the error's display text;
* `DisplayValue` and `fmt::Arguments` call `record_debug` on themselves
  (their `Debug` rendering); `DebugValue` calls `record_debug` on its inner
  value's `Debug` rendering;
* `String` calls `record_str`; `Box<T>` and `Wrapping<T>` forward to the
  inner value's `record`; `Empty`'s `record` is a no-op. -/
def Value.record {σ : Type} (v : Value) (key : Field) (vis : Visitor σ) (s : σ) : σ :=
  match v with
  | .vU64 n => vis.recordU64 s key n
  | .vUsize n => vis.recordU64 s key n
  | .vU32 n => vis.recordU64 s key n
  | .vU16 n => vis.recordU64 s key n
  | .vU8 n => vis.recordU64 s key n
  | .vI64 n => vis.recordI64 s key n
  | .vIsize n => vis.recordI64 s key n
  | .vI32 n => vis.recordI64 s key n
  | .vI16 n => vis.recordI64 s key n
  | .vI8 n => vis.recordI64 s key n
  | .vU128 n => vis.recordU128 s key n
  | .vI128 n => vis.recordI128 s key n
  | .vBool b => vis.recordBool s key b
  | .vF64 q => vis.recordF64 s key q
  | .vF32 q => vis.recordF64 s key q
  | .vNonZeroU64 n => vis.recordU64 s key n
  | .vNonZeroUsize n => vis.recordU64 s key n
  | .vNonZeroU32 n => vis.recordU64 s key n
  | .vNonZeroU16 n => vis.recordU64 s key n
  | .vNonZeroU8 n => vis.recordU64 s key n
  | .vNonZeroI64 n => vis.recordI64 s key n
  | .vNonZeroIsize n => vis.recordI64 s key n
  | .vNonZeroI32 n => vis.recordI64 s key n
  | .vNonZeroI16 n => vis.recordI64 s key n
  | .vNonZeroI8 n => vis.recordI64 s key n
  | .vNonZeroU128 n => vis.recordU128 s key n
  | .vNonZeroI128 n => vis.recordI128 s key n
  | .vStr str => vis.recordStr s key str
  | .vBytes bs => vis.recordBytes s key bs
  | .vError d => vis.recordError s key d
  | .vDisplayValue d => vis.recordDebug s key d
  | .vDebugValue d => vis.recordDebug s key d
  | .vArguments d => vis.recordDebug s key d
  | .vString str => vis.recordStr s key str
  | .vBoxed inner => inner.record key vis s
  | .vWrapping inner => inner.record key vis s
  | .vEmpty => s

/-- `ValueSet { values, fields }` from field.rs. The borrowed slice of
`(&Field, Option<&dyn Value>)` pairs becomes a list of pairs. -/
structure ValueSet where
  values : List (Field × Option Value)
  fields : FieldSet

/-- `ValueSet::callsite`: `self.fields.callsite()`. -/
def ValueSet.callsite (vs : ValueSet) : Nat :=
  vs.fields.callsite

/-- The loop body of `ValueSet::record`, parameterised by `my_callsite`
(read once before the loop in the source): skip the pair when
`field.callsite() != my_callsite`; otherwise, when the slot is
`Some(value)`, run `value.record(field, visitor)`. -/
def recordList {σ : Type} (myCallsite : Nat) (vis : Visitor σ)
    (l : List (Field × Option Value)) (s : σ) : σ :=
  l.foldl
    (fun s p =>
      if p.1.callsite ≠ myCallsite then s
      else
        match p.2 with
        | some v => v.record p.1 vis s
        | none => s)
    s

/-- `ValueSet::record`. -/
def ValueSet.record {σ : Type} (vs : ValueSet) (vis : Visitor σ) (s : σ) : σ :=
  recordList vs.callsite vis vs.values s

/-- `ValueSet::len`: `self.values.iter().filter(|(field, _)| field.callsite() == my_callsite).count()`. -/
def ValueSet.len (vs : ValueSet) : Nat :=
  (vs.values.filter (fun p => p.1.callsite == vs.callsite)).length

/-- `ValueSet::is_empty`: `self.values.iter().all(|(key, val)| val.is_none() || key.callsite() != my_callsite)`. -/
def ValueSet.isEmpty (vs : ValueSet) : Bool :=
  vs.values.all (fun p => p.2.isNone || p.1.callsite != vs.callsite)

/-- `FieldSet::new`. -/
def FieldSet.new (names : List String) (callsite : Nat) : FieldSet :=
  ⟨names, callsite⟩

/-- `FieldSet::len`: `self.names.len()`. -/
def FieldSet.len (fs : FieldSet) : Nat :=
  fs.names.length

/-- `FieldSet::field`: `self.names.iter().position(|f| f == name).map(|i| Field { i, fields: FieldSet { names: self.names, callsite: self.callsite() } })`. -/
def FieldSet.field (fs : FieldSet) (name : String) : Option Field :=
  (fs.names.findIdx? (fun f => f == name)).map
    (fun i => { i := i, fields := { names := fs.names, callsite := fs.callsite } })

/-- `FieldSet::contains`: `field.callsite() == self.callsite() && field.i <= self.len()`. -/
def FieldSet.contains (fs : FieldSet) (field : Field) : Bool :=
  field.callsite == fs.callsite && decide (field.i ≤ fs.len)

/-- `FieldSet::iter` together with `Iterator for Iter`: the iterator walks
`idxs = 0..self.len()` and yields `Field { i, fields: FieldSet { names, callsite } }`
for each index; it is modelled by the finite list of the fields it yields. -/
def FieldSet.iter (fs : FieldSet) : List Field :=
  (List.range fs.len).map
    (fun i => { i := i, fields := { names := fs.names, callsite := fs.callsite } })

/-- `FieldSet::eq` (the `PartialEq` impl), parameterised by the
`debug_assertions` build flag and by the result of the
`core::ptr::eq(&self, &other)` fast path (true only when both arguments are
the very same reference). In a release build (`debugAssertions = false`) it
compares only the callsites; in a debug build it also compares the name
sequences. -/
def fieldSetEq (debugAssertions : Bool) (samePtr : Bool) (a b : FieldSet) : Bool :=
  if samePtr then true
  else if !debugAssertions then a.callsite == b.callsite
  else a.callsite == b.callsite && a.names == b.names

/-- The `{byte:02x}` rendering used by `HexBytes`: lowercase hexadecimal,
zero-padded to a minimum width of two digits. -/
def byteHex (b : Nat) : String :=
  let ds := Nat.toDigits 16 b
  String.mk (List.replicate (2 - ds.length) '0' ++ ds)

/-- The `fmt::Debug` impl of `HexBytes`: write `'['`; write the first byte as
`{byte:02x}`; write every further byte as `" {byte:02x}"`; write `']'`. -/
def hexBytes (bs : List Nat) : String :=
  match bs with
  | [] => "[" ++ "]"
  | b :: rest =>
      "[" ++ byteHex b ++ String.join (rest.map (fun b => " " ++ byteHex b)) ++ "]"

/-- Debug rendering of an unsigned integer (`{:?}` on `u64`/`u128`). -/
def dbgNat (n : Nat) : String :=
  toString n

/-- Debug rendering of a signed integer (`{:?}` on `i64`/`i128`). -/
def dbgInt (n : Int) : String :=
  toString n

/-- Debug rendering of a `bool`. -/
def dbgBool (b : Bool) : String :=
  if b then "true" else "false"

/-- Debug rendering of an `f64` payload. The exact decimal shape of Rust's
float formatting is not load-bearing for any claim (both formatting paths and
the visitor defaults share this function), so the modelled rational payload is
rendered as `num/den`. -/
def dbgRat (q : Rat) : String :=
  toString q.num ++ "/" ++ toString q.den

/-- Debug rendering of a `str` (`{:?}` quotes the string). Escape sequences
inside the string are elided; no claim depends on them. -/
def dbgStrLit (s : String) : String :=
  "\"" ++ s ++ "\""

/-- Debug rendering of a `callsite::Identifier` (used by the trailing
`callsite` entry of `ValueSet`'s `Debug` impl). The identifier type lives
outside this file's source; its exact rendering is not load-bearing. -/
def dbgCallsite (c : Nat) : String :=
  "Identifier(" ++ toString c ++ ")"

/-- A visitor built from the `Visit` trait's default methods: every typed
method defaults to `record_debug(field, &value)` with the value's `Debug`
rendering; `record_bytes` defaults to `record_debug(field, &HexBytes(value))`;
`record_error` defaults to `record_debug(field, &DisplayValue(value))`, whose
`Debug` rendering is the error's display text. Only `record_debug` is
supplied by the implementor. -/
def defaultVisitor {σ : Type} (rd : σ → Field → String → σ) : Visitor σ where
  recordF64 := fun s f v => rd s f (dbgRat v)
  recordI64 := fun s f v => rd s f (dbgInt v)
  recordU64 := fun s f v => rd s f (dbgNat v)
  recordI128 := fun s f v => rd s f (dbgInt v)
  recordU128 := fun s f v => rd s f (dbgNat v)
  recordBool := fun s f v => rd s f (dbgBool v)
  recordStr := fun s f v => rd s f (dbgStrLit v)
  recordBytes := fun s f v => rd s f (hexBytes v)
  recordError := fun s f v => rd s f v
  recordDebug := rd

/-- The adapter visitor shared by `impl Visit for fmt::DebugStruct` and
`impl Visit for fmt::DebugMap`: both implement only `record_debug` and append
one entry per call. `DebugStruct` keys the entry by `field.name()` and
`DebugMap` by `format!("{}", field)` (`Field`'s `Display` pads its name; with
no width request both render the bare name). The builder state is the list of
`(key, rendered value)` entries. -/
def entryVisitor : Visitor (List (String × String)) :=
  defaultVisitor (fun s f d => s ++ [(f.nameD, d)])

/-- The fold shared by `ValueSet`'s `Debug` and `Display` impls: over all
pairs, `if let Some(val) = v { val.record(key, dbg) }` — note: no callsite
filter. -/
def fmtFold {σ : Type} (vis : Visitor σ) (l : List (Field × Option Value)) (s : σ) : σ :=
  l.foldl
    (fun dbg p =>
      match p.2 with
      | some v => v.record p.1 vis dbg
      | none => dbg)
    s

/-- The entry list built by `impl fmt::Debug for ValueSet`: fold every pair
through the `DebugStruct` adapter, then append the `("callsite", ...)` field. -/
def ValueSet.fmtDebugEntries (vs : ValueSet) : List (String × String) :=
  fmtFold entryVisitor vs.values [] ++ [("callsite", dbgCallsite vs.callsite)]

/-- The entry list built by `impl fmt::Display for ValueSet`: fold every pair
through the `DebugMap` adapter. -/
def ValueSet.fmtDisplayEntries (vs : ValueSet) : List (String × String) :=
  fmtFold entryVisitor vs.values []

/-- Modelled from the spec (refinement reference for claim C3): the entry
list Debug formatting would produce if it fed the ValueSet's own `record()`
traversal — including its foreign-callsite filtering — into the adapter
visitor, then appended the `callsite` field. -/
def ValueSet.fmtDebugEntriesSpec (vs : ValueSet) : List (String × String) :=
  vs.record entryVisitor [] ++ [("callsite", dbgCallsite vs.callsite)]

/-- Modelled from the spec (refinement reference for claim C3): the entry
list Display formatting would produce if it fed the ValueSet's own `record()`
traversal into the adapter visitor. -/
def ValueSet.fmtDisplayEntriesSpec (vs : ValueSet) : List (String × String) :=
  vs.record entryVisitor []

/-- A character is a lowercase hexadecimal digit. -/
def isLowerHexDigit (c : Char) : Bool :=
  c.isDigit || ('a' ≤ c && c ≤ 'f')

/-! Concrete fixtures, mirroring the `TEST_META_1` / `TEST_META_2` setup of
the module's own tests: two field sets with the same names but distinct
callsite identifiers. -/

/-- A field set with names `["foo", "bar", "baz"]` at callsite `1`. -/
def fsOwn : FieldSet :=
  ⟨["foo", "bar", "baz"], 1⟩

/-- A field set with the same names as `fsOwn` but foreign callsite `2`. -/
def fsOther : FieldSet :=
  ⟨["foo", "bar", "baz"], 2⟩

/-- The field `foo` of `fsOwn`. -/
def fOwn0 : Field :=
  ⟨0, fsOwn⟩

/-- The field `bar` of `fsOwn`. -/
def fOwn1 : Field :=
  ⟨1, fsOwn⟩

/-- The field `baz` of `fsOwn`. -/
def fOwn2 : Field :=
  ⟨2, fsOwn⟩

/-- The field `bar` of the foreign field set `fsOther`. -/
def fOther1 : Field :=
  ⟨1, fsOther⟩

/-- A ValueSet over `fsOwn` whose single pair has an absent (`None`) value. -/
def vsNone : ValueSet :=
  ⟨[(fOwn0, none)], fsOwn⟩

/-- A ValueSet over `fsOwn` containing a single pair whose field belongs to
the foreign callsite and whose value is present. -/
def vsForeign : ValueSet :=
  ⟨[(fOther1, some (Value.vU64 1))], fsOwn⟩

/-- A ValueSet mirroring the module's `empty_fields_are_skipped` test: an
`Empty`-sentinel pair, then a present `57u64`, then another `Empty` pair,
all on the own callsite. -/
def vsMix : ValueSet :=
  ⟨[(fOwn0, some Value.vEmpty), (fOwn1, some (Value.vU64 57)), (fOwn2, some Value.vEmpty)],
    fsOwn⟩

/-- A ValueSet over `fsOwn` whose pairs all belong to the own callsite, one
present and one absent. -/
def vsOwnPairs : ValueSet :=
  ⟨[(fOwn1, some (Value.vU64 57)), (fOwn0, none)], fsOwn⟩

/-- A ValueSet over `fsOwn` with a single own-callsite pair carrying the
present `Empty` sentinel. -/
def vsEmptyVal : ValueSet :=
  ⟨[(fOwn0, some Value.vEmpty)], fsOwn⟩

/-- A one-name field set at callsite `7`. -/
def fsShort : FieldSet :=
  ⟨["foo"], 7⟩

/-- A field with index `1`, built from a two-name field set that shares
callsite `7` with `fsShort`. -/
def fLong : Field :=
  ⟨1, ⟨["foo", "bar"], 7⟩⟩

/-! Helper lemmas about the `record` loop. -/

/-- Unfolding one step of the `ValueSet::record` loop. -/
theorem recordList_cons {σ : Type} (c : Nat) (vis : Visitor σ)
    (p : Field × Option Value) (l : List (Field × Option Value)) (s : σ) :
    recordList c vis (p :: l) s =
      recordList c vis l
        (if p.1.callsite ≠ c then s
         else
           match p.2 with
           | some v => v.record p.1 vis s
           | none => s) :=
  rfl

/-- Unfolding one step of the fold shared by the formatting impls. -/
theorem fmtFold_cons {σ : Type} (vis : Visitor σ)
    (p : Field × Option Value) (l : List (Field × Option Value)) (s : σ) :
    fmtFold vis (p :: l) s =
      fmtFold vis l
        (match p.2 with
         | some v => v.record p.1 vis s
         | none => s) :=
  rfl

/-- The `record` loop visits exactly the pairs kept by the filter
"own callsite and present value", in input order. -/
theorem recordList_eq_filter {σ : Type} (c : Nat) (vis : Visitor σ)
    (l : List (Field × Option Value)) (s : σ) :
    recordList c vis l s =
      (l.filter (fun p => p.1.callsite == c && p.2.isSome)).foldl
        (fun s p =>
          match p.2 with
          | some v => v.record p.1 vis s
          | none => s) s := by
  induction l generalizing s with
  | nil => rfl
  | cons p l ih =>
    rw [recordList_cons, List.filter_cons]
    by_cases hc : p.1.callsite = c
    · cases hv : p.2 with
      | some v => simp [hc, hv, ih]
      | none => simp [hc, hv, ih s]
    · simp [hc, ih s]

/-- When every pair belongs to callsite `c`, the `record` loop coincides with
the unfiltered formatting fold. -/
theorem recordList_eq_fmtFold {σ : Type} (c : Nat) (vis : Visitor σ)
    (l : List (Field × Option Value)) (s : σ)
    (h : ∀ p ∈ l, p.1.callsite = c) :
    recordList c vis l s = fmtFold vis l s := by
  induction l generalizing s with
  | nil => rfl
  | cons p l ih =>
    rw [recordList_cons, fmtFold_cons]
    have hp : p.1.callsite = c := h p (List.mem_cons_self p l)
    have hrest : ∀ q ∈ l, q.1.callsite = c := fun q hq => h q (List.mem_cons_of_mem p hq)
    cases hv : p.2 with
    | some v => simp [hp, hv, ih _ hrest]
    | none => simp [hp, hv, ih _ hrest]

/-- Pairs carrying the `Empty` sentinel contribute nothing to the `record`
loop: removing them leaves the loop's result unchanged. -/
theorem recordList_filter_empty {σ : Type} (c : Nat) (vis : Visitor σ)
    (l : List (Field × Option Value)) (s : σ) :
    recordList c vis l s =
      recordList c vis (l.filter (fun p => !(p.2 == some Value.vEmpty))) s := by
  induction l generalizing s with
  | nil => rfl
  | cons p l ih =>
    rw [recordList_cons, List.filter_cons]
    by_cases he : p.2 = some Value.vEmpty
    · have hdrop : (!(p.2 == some Value.vEmpty)) = false := by
        simp [he]
      have hstep :
          (if p.1.callsite ≠ c then s
           else
             match p.2 with
             | some v => v.record p.1 vis s
             | none => s) = s := by
        rw [he]
        by_cases hc : p.1.callsite = c <;> simp [hc, Value.record]
      simp only [hdrop, Bool.false_eq_true, if_neg, not_false_eq_true, hstep]
      exact ih s
    · have hkeep : (!(p.2 == some Value.vEmpty)) = true := by
        simp [he]
      simp only [hkeep, if_pos, recordList_cons]
      exact ih _

/-! Helper lemmas about string concatenation, for the `HexBytes` format. -/

/-- Folding append over a list starting from `acc` prepends `acc` to the join. -/
theorem foldl_append_eq_join (l : List String) (acc : String) :
    l.foldl (fun r s => r ++ s) acc = acc ++ String.join l := by
  induction l generalizing acc with
  | nil => simp [String.join]
  | cons a l ih =>
    show l.foldl (fun r s => r ++ s) (acc ++ a) = acc ++ String.join (a :: l)
    rw [ih]
    have : String.join (a :: l) = a ++ String.join l := by
      show l.foldl (fun r s => r ++ s) ("" ++ a) = a ++ String.join l
      rw [String.empty_append, ih]
    rw [this, String.append_assoc]

/-- `String.join` distributes over `cons`. -/
theorem stringJoin_cons (a : String) (l : List String) :
    String.join (a :: l) = a ++ String.join l := by
  show l.foldl (fun r s => r ++ s) ("" ++ a) = a ++ String.join l
  rw [String.empty_append, foldl_append_eq_join]

/-- The accumulator loop of `String.intercalate` with separator `" "`. -/
theorem intercalateGo_eq (l : List String) (acc : String) :
    String.intercalate.go acc " " l = acc ++ String.join (l.map (fun x => " " ++ x)) := by
  induction l generalizing acc with
  | nil =>
    show acc = acc ++ String.join []
    simp [String.join]
  | cons a l ih =>
    show String.intercalate.go (acc ++ " " ++ a) " " l = _
    rw [ih, List.map_cons, stringJoin_cons]
    simp [String.append_assoc]

/-- `hexBytes` is the space-intercalation of the per-byte hex renderings,
wrapped in brackets. -/
theorem hexBytes_eq_intercalate (bs : List Nat) :
    hexBytes bs = "[" ++ String.intercalate " " (bs.map byteHex) ++ "]" := by
  cases bs with
  | nil => simp [hexBytes, String.intercalate]
  | cons b rest =>
    have hgo : String.intercalate " " (byteHex b :: rest.map byteHex)
        = byteHex b ++ String.join ((rest.map byteHex).map (fun x => " " ++ x)) :=
      intercalateGo_eq (rest.map byteHex) (byteHex b)
    rw [List.map_cons, hgo]
    simp [hexBytes, List.map_map, Function.comp_def, String.append_assoc]

set_option maxRecDepth 4000 in
/-- Every byte value renders as exactly two lowercase hexadecimal digits. -/
theorem byteHex_two_lower (b : Nat) (hb : b < 256) :
    (byteHex b).length = 2 ∧ (byteHex b).toList.all isLowerHexDigit = true := by
  have hball : ∀ x ∈ List.range 256,
      (byteHex x).length = 2 ∧ (byteHex x).toList.all isLowerHexDigit = true := by decide
  exact hball b (List.mem_range.mpr hb)

/-! The claim theorems. -/

/-- Claim C1 (divergence evidence): `ValueSet::len` does not require the
value slot to be present. On a ValueSet whose single pair carries the own
callsite's field and an absent (`None`) value, `len()` returns `1`, even
though `is_empty()` holds and `record()` visits nothing — contradicting both
the claim and the method's own doc comment ("the number of fields ... that
would be visited ... by `ValueSet::record()`"), which say the count is `0`. -/
theorem valueSetLen_counts_absent_pair :
    vsNone.len = 1 ∧ vsNone.isEmpty = true
    ∧ (∀ (σ : Type) (vis : Visitor σ) (s : σ), vsNone.record vis s = s) :=
  ⟨rfl, rfl, fun _ _ _ => rfl⟩

/-- Claim C2 (counterexample): `FieldSet::contains` uses `field.i <= self.len()`,
so a field with index equal to the field count — one past the last valid
index — is reported as contained when the callsites match, falsifying the
claim's strict bound `index < number of fields`. -/
theorem fieldSetContains_accepts_index_eq_len :
    fsShort.contains fLong = true ∧ ¬(fLong.i < fsShort.len) := by
  decide

/-- Claim C2 (amended): `contains(field)` returns true iff the field's
callsite identity matches this FieldSet's identity and its index is at most
(not strictly less than) the number of fields. -/
theorem fieldSetContains_iff (fs : FieldSet) (f : Field) :
    fs.contains f = true ↔ (f.callsite = fs.callsite ∧ f.i ≤ fs.len) := by
  simp [FieldSet.contains, Bool.and_eq_true, beq_iff_eq, decide_eq_true_eq]

/-- Witness for the amended C2 at a concrete field set and field. -/
theorem fieldSetContains_iff_witness : fsOwn.contains fOwn2 = true :=
  (fieldSetContains_iff fsOwn fOwn2).mpr ⟨rfl, by decide⟩

/-- Claim C3 (counterexample): `ValueSet`'s `Debug` and `Display` impls fold
over the raw pair list without `record()`'s foreign-callsite filter, so a
present pair whose field belongs to another callsite does appear in the
formatted output, while feeding the `record()` traversal into the same
adapter visitors omits it. -/
theorem valueSetFmt_shows_foreign_pair :
    vsForeign.fmtDebugEntries ≠ vsForeign.fmtDebugEntriesSpec
    ∧ vsForeign.fmtDisplayEntries ≠ vsForeign.fmtDisplayEntriesSpec := by
  decide

/-- Claim C3 (amended): formatting feeds every pair with a present value into
the adapter visitors through the same double-dispatch path, but without
`record()`'s foreign-callsite filter; consequently the Debug and Display
output coincides with the output of feeding the ValueSet's own `record()`
traversal into the adapter visitors whenever every pair's field belongs to
the ValueSet's own callsite. -/
theorem valueSetFmt_eq_record_of_own (vs : ValueSet)
    (h : ∀ p ∈ vs.values, p.1.callsite = vs.callsite) :
    vs.fmtDebugEntries = vs.fmtDebugEntriesSpec
    ∧ vs.fmtDisplayEntries = vs.fmtDisplayEntriesSpec := by
  have hmain : fmtFold entryVisitor vs.values ([] : List (String × String))
      = vs.record entryVisitor [] :=
    (recordList_eq_fmtFold vs.callsite entryVisitor vs.values [] h).symm
  exact ⟨by simp [ValueSet.fmtDebugEntries, ValueSet.fmtDebugEntriesSpec, hmain],
    by simp [ValueSet.fmtDisplayEntries, ValueSet.fmtDisplayEntriesSpec, hmain]⟩

/-- Witness for the amended C3 at a concrete own-callsite ValueSet. -/
theorem valueSetFmt_eq_record_of_own_witness :
    vsOwnPairs.fmtDebugEntries = vsOwnPairs.fmtDebugEntriesSpec :=
  (valueSetFmt_eq_record_of_own vsOwnPairs (by decide)).1

/-- Claim C4: `is_empty()` is true iff no pair both belongs to the ValueSet's
own callsite and carries a present (`Some`) value slot; in particular any
own-callsite pair with a present value — including the present `Empty`
sentinel — forces `is_empty()` to return false, while `None` slots and
foreign-callsite pairs are disregarded. -/
theorem valueSetIsEmpty_iff (vs : ValueSet) :
    (vs.isEmpty = true ↔ ∀ p ∈ vs.values, p.2 = none ∨ p.1.callsite ≠ vs.callsite)
    ∧ (∀ p ∈ vs.values, p.1.callsite = vs.callsite → ∀ v, p.2 = some v →
        vs.isEmpty = false) := by
  have hiff : vs.isEmpty = true ↔
      ∀ p ∈ vs.values, p.2 = none ∨ p.1.callsite ≠ vs.callsite := by
    simp [ValueSet.isEmpty, List.all_eq_true, Option.isNone_iff_eq_none,
      Bool.or_eq_true, bne_iff_ne]
  refine ⟨hiff, ?_⟩
  intro p hp hc v hv
  cases hempty : vs.isEmpty with
  | false => rfl
  | true =>
    rcases hiff.mp hempty p hp with h1 | h2
    · rw [hv] at h1
      cases h1
    · exact absurd hc h2

/-- Witness for C4: a present `Empty`-sentinel pair on the own callsite makes
`is_empty()` return false. -/
theorem valueSetIsEmpty_iff_witness : vsEmptyVal.isEmpty = false :=
  (valueSetIsEmpty_iff vsEmptyVal).2 (fOwn0, some Value.vEmpty) (by decide) rfl
    Value.vEmpty rfl

/-- Claim C5: for every visitor, `record(visitor)` traverses the pairs in
input-sequence order, processing exactly those kept by the filter "field's
callsite equals the ValueSet's own identity and value slot present", and
invokes the value's `record` with the field and the visitor on each; every
processed pair belongs to the own callsite, so a foreign-callsite pair never
reaches the visitor. -/
theorem valueSetRecord_visits_filtered (σ : Type) (vis : Visitor σ) (s : σ)
    (vs : ValueSet) :
    vs.record vis s =
      (vs.values.filter (fun p => p.1.callsite == vs.callsite && p.2.isSome)).foldl
        (fun s p =>
          match p.2 with
          | some v => v.record p.1 vis s
          | none => s) s
    ∧ ∀ p ∈ vs.values.filter (fun p => p.1.callsite == vs.callsite && p.2.isSome),
        p.1.callsite = vs.callsite ∧ p.2.isSome = true := by
  refine ⟨recordList_eq_filter vs.callsite vis vs.values s, ?_⟩
  intro p hp
  have hpred := (List.mem_filter.mp hp).2
  simpa [Bool.and_eq_true, beq_iff_eq] using hpred

/-- Witness for C5 at a concrete ValueSet and visitor: the present pair kept
by the filter belongs to the ValueSet's own callsite. -/
theorem valueSetRecord_visits_filtered_witness :
    fOwn1.callsite = vsMix.callsite :=
  ((valueSetRecord_visits_filtered (List (String × String)) entryVisitor [] vsMix).2
    (fOwn1, some (Value.vU64 57)) (by decide)).1

/-- Claim C6: two FieldSets compare equal in a release build
(`debugAssertions = false`) iff their callsite identifiers are equal; in a
debug build (`debugAssertions = true`) equality additionally requires
identical name sequences. The `core::ptr::eq` fast path can only be taken
when both arguments are the same reference, which the hypothesis encodes. -/
theorem fieldSetEq_release_debug (samePtr : Bool) (a b : FieldSet)
    (h : samePtr = true → a = b) :
    fieldSetEq false samePtr a b = (a.callsite == b.callsite)
    ∧ fieldSetEq true samePtr a b = (a.callsite == b.callsite && a.names == b.names) := by
  cases samePtr with
  | false => exact ⟨rfl, rfl⟩
  | true =>
    have hab : a = b := h rfl
    subst hab
    constructor <;> simp [fieldSetEq]

/-- Witness for C6 at two concrete distinct FieldSets. -/
theorem fieldSetEq_release_debug_witness :
    fieldSetEq false false fsOwn fsOther = (fsOwn.callsite == fsOther.callsite)
    ∧ fieldSetEq true false fsOwn fsOther
        = (fsOwn.callsite == fsOther.callsite && fsOwn.names == fsOther.names) :=
  fieldSetEq_release_debug false fsOwn fsOther (by decide)

/-- Claim C7: each member of the closed numeric catalogue invokes exactly one
visitor method, with the specified transform: `u8`/`u16`/`u32`/`usize` call
`record_u64` widened to `u64`; `i8`/`i16`/`i32`/`isize` call `record_i64`
widened to `i64`; `f32` calls `record_f64` widened to `f64`; `u64`, `i64`,
`u128`, `i128`, `bool` and `f64` call their matching method with the identity
value (the widenings are value-preserving, hence identities on the modelled
payloads); and every non-zero integer variant unwraps to its underlying value
and then behaves exactly as the base type. -/
theorem valueRecord_numeric_catalogue (σ : Type) (vis : Visitor σ) (s : σ) (f : Field) :
    (∀ n : Nat, (Value.vU64 n).record f vis s = vis.recordU64 s f n)
    ∧ (∀ n : Nat, (Value.vUsize n).record f vis s = vis.recordU64 s f n)
    ∧ (∀ n : Nat, (Value.vU32 n).record f vis s = vis.recordU64 s f n)
    ∧ (∀ n : Nat, (Value.vU16 n).record f vis s = vis.recordU64 s f n)
    ∧ (∀ n : Nat, (Value.vU8 n).record f vis s = vis.recordU64 s f n)
    ∧ (∀ n : Int, (Value.vI64 n).record f vis s = vis.recordI64 s f n)
    ∧ (∀ n : Int, (Value.vIsize n).record f vis s = vis.recordI64 s f n)
    ∧ (∀ n : Int, (Value.vI32 n).record f vis s = vis.recordI64 s f n)
    ∧ (∀ n : Int, (Value.vI16 n).record f vis s = vis.recordI64 s f n)
    ∧ (∀ n : Int, (Value.vI8 n).record f vis s = vis.recordI64 s f n)
    ∧ (∀ n : Nat, (Value.vU128 n).record f vis s = vis.recordU128 s f n)
    ∧ (∀ n : Int, (Value.vI128 n).record f vis s = vis.recordI128 s f n)
    ∧ (∀ b : Bool, (Value.vBool b).record f vis s = vis.recordBool s f b)
    ∧ (∀ q : Rat, (Value.vF64 q).record f vis s = vis.recordF64 s f q)
    ∧ (∀ q : Rat, (Value.vF32 q).record f vis s = vis.recordF64 s f q)
    ∧ (∀ n : Nat, (Value.vNonZeroU64 n).record f vis s = (Value.vU64 n).record f vis s)
    ∧ (∀ n : Nat, (Value.vNonZeroUsize n).record f vis s = (Value.vUsize n).record f vis s)
    ∧ (∀ n : Nat, (Value.vNonZeroU32 n).record f vis s = (Value.vU32 n).record f vis s)
    ∧ (∀ n : Nat, (Value.vNonZeroU16 n).record f vis s = (Value.vU16 n).record f vis s)
    ∧ (∀ n : Nat, (Value.vNonZeroU8 n).record f vis s = (Value.vU8 n).record f vis s)
    ∧ (∀ n : Int, (Value.vNonZeroI64 n).record f vis s = (Value.vI64 n).record f vis s)
    ∧ (∀ n : Int, (Value.vNonZeroIsize n).record f vis s = (Value.vIsize n).record f vis s)
    ∧ (∀ n : Int, (Value.vNonZeroI32 n).record f vis s = (Value.vI32 n).record f vis s)
    ∧ (∀ n : Int, (Value.vNonZeroI16 n).record f vis s = (Value.vI16 n).record f vis s)
    ∧ (∀ n : Int, (Value.vNonZeroI8 n).record f vis s = (Value.vI8 n).record f vis s)
    ∧ (∀ n : Nat, (Value.vNonZeroU128 n).record f vis s = (Value.vU128 n).record f vis s)
    ∧ (∀ n : Int, (Value.vNonZeroI128 n).record f vis s = (Value.vI128 n).record f vis s) :=
  ⟨fun _ => rfl, fun _ => rfl, fun _ => rfl, fun _ => rfl, fun _ => rfl,
    fun _ => rfl, fun _ => rfl, fun _ => rfl, fun _ => rfl, fun _ => rfl,
    fun _ => rfl, fun _ => rfl, fun _ => rfl, fun _ => rfl, fun _ => rfl,
    fun _ => rfl, fun _ => rfl, fun _ => rfl, fun _ => rfl, fun _ => rfl,
    fun _ => rfl, fun _ => rfl, fun _ => rfl, fun _ => rfl, fun _ => rfl,
    fun _ => rfl, fun _ => rfl⟩

/-- Claim C8: recording the `Empty` sentinel invokes no visitor method (for
every visitor it leaves the visitor state untouched); during a
`ValueSet::record` traversal, removing all `Empty`-carrying pairs leaves the
traversal's effect on any visitor unchanged, and in the concrete mixed
ValueSet of the module's own test the visitor observes exactly the one
non-`Empty` pair (`bar = 57`) although `Empty` pairs surround it. -/
theorem emptyValue_never_reaches_visitor :
    (∀ (σ : Type) (vis : Visitor σ) (s : σ) (f : Field),
        Value.vEmpty.record f vis s = s)
    ∧ (∀ (σ : Type) (vis : Visitor σ) (s : σ) (vs : ValueSet),
        vs.record vis s =
          ValueSet.record
            ⟨vs.values.filter (fun p => !(p.2 == some Value.vEmpty)), vs.fields⟩ vis s)
    ∧ vsMix.record entryVisitor [] = [("bar", "57")] :=
  ⟨fun _ _ _ _ => rfl,
    fun _ vis s vs => recordList_filter_empty vs.callsite vis vs.values s,
    rfl⟩

/-- Claim C9: the default `record_bytes` fallback debug-formats a byte slice
as an opening bracket, the bytes each rendered as exactly two lowercase hex
digits and separated by single spaces, and a closing bracket; the bytes
`0x61, 0x62, 0x63` render as `"[61 62 63]"`, and the `Visit` default for
`record_bytes` hands exactly this rendering to `record_debug`. -/
theorem recordBytes_hex_format :
    (∀ bs : List Nat, hexBytes bs = "[" ++ String.intercalate " " (bs.map byteHex) ++ "]")
    ∧ (∀ b : Nat, b < 256 →
        (byteHex b).length = 2 ∧ (byteHex b).toList.all isLowerHexDigit = true)
    ∧ hexBytes [0x61, 0x62, 0x63] = "[61 62 63]"
    ∧ (∀ (σ : Type) (rd : σ → Field → String → σ) (s : σ) (f : Field) (bs : List Nat),
        (defaultVisitor rd).recordBytes s f bs = rd s f (hexBytes bs)) :=
  ⟨hexBytes_eq_intercalate, byteHex_two_lower, rfl, fun _ _ _ _ _ => rfl⟩

/-- Witness for C9 at a concrete byte. -/
theorem recordBytes_hex_format_witness :
    (byteHex 192).length = 2 ∧ (byteHex 192).toList.all isLowerHexDigit = true :=
  recordBytes_hex_format.2.1 192 (by decide)

/-- Claim C10: every `Field` produced by `FieldSet::field(name)` or by
`FieldSet::iter()` carries an index strictly below the length of its
FieldSet's name sequence (which for `field(name)` is the queried FieldSet's
own name sequence), so `Field::name()`'s indexing is in bounds — the lookup
yields a value rather than panicking. -/
theorem publicFields_index_in_bounds :
    (∀ (fs : FieldSet) (nm : String) (fld : Field),
        fs.field nm = some fld →
          fld.i < fld.fields.names.length ∧ fld.fields.names = fs.names
            ∧ fld.name.isSome = true)
    ∧ (∀ (fs : FieldSet), ∀ fld ∈ fs.iter,
        fld.i < fld.fields.names.length ∧ fld.name.isSome = true) := by
  constructor
  · intro fs nm fld h
    simp only [FieldSet.field, Option.map_eq_some'] at h
    obtain ⟨i, hi, rfl⟩ := h
    have hlt : i < fs.names.length := by
      rcases List.findIdx?_eq_some_iff_getElem.mp hi with ⟨hl, -, -⟩
      exact hl
    refine ⟨hlt, rfl, ?_⟩
    simp [Field.name, List.getElem?_eq_getElem, hlt]
  · intro fs fld h
    simp only [FieldSet.iter, List.mem_map, List.mem_range] at h
    obtain ⟨i, hi, rfl⟩ := h
    have hlt : i < fs.names.length := hi
    exact ⟨hlt, by simp [Field.name, List.getElem?_eq_getElem, hlt]⟩

/-- Witness for C10: the field `bar` looked up by name, and the field `foo`
yielded by iteration, both carry in-bounds indices. -/
theorem publicFields_index_in_bounds_witness :
    (fOwn1.i < fOwn1.fields.names.length ∧ fOwn1.fields.names = fsOwn.names
      ∧ fOwn1.name.isSome = true)
    ∧ (fOwn0.i < fOwn0.fields.names.length ∧ fOwn0.name.isSome = true) :=
  ⟨publicFields_index_in_bounds.1 fsOwn "bar" fOwn1 (by decide),
    publicFields_index_in_bounds.2 fsOwn fOwn0 (by decide)⟩

end Tracing
